import Mathlib

/-!
Verification of `src/crates/apollo_sierra_multicompile/src/command_line_compiler.rs`:
a shallow embedding of the command-line compiler, its resource-limited subprocess
executor, and the failure-classification logic, together with theorems settling
the specification claims. External effects (serialization, temp-file creation,
the child process, artifact loading) are supplied by an explicit environment so
the control flow of the Rust functions is modelled exactly.
-/

namespace SierraMulticompile

/-- POSIX exit status of a child process, as observed through
`std::process::ExitStatus` with the unix `ExitStatusExt` extension:
the child either exited with a numeric code or was terminated by a signal. -/
inductive ExitStatus where
  | exited (code : Nat)
  | signaled (sig : Nat)
deriving DecidableEq, Repr

/-- `ExitStatus::success()`: true exactly when the child exited with code 0. -/
def ExitStatus.success : ExitStatus → Bool
  | .exited 0 => true
  | _ => false

/-- `ExitStatusExt::signal()`: the terminating signal, when there is one. -/
def ExitStatus.signal : ExitStatus → Option Nat
  | .signaled s => some s
  | .exited _ => none

/-- The Display rendering of an exit status on unix (std library): the raw
status as text, used when the status is interpolated into the error message. -/
def ExitStatus.display : ExitStatus → String
  | .exited c => String.append "exit status: " (toString c)
  | .signaled s => String.append "signal: " (toString s)

/-- The captured result of `Command::output()`: the exit status together with
the fully captured standard-output and standard-error byte streams. -/
structure ProcOutput where
  status : ExitStatus
  stdout : List Nat
  stderr : List Nat
deriving DecidableEq, Repr

/-- Modelled from the spec: `ResourceLimits` lives in `crate::resource_limits`,
which is not under src/. Per the spec (section 3, ResourceLimitSpec) it is an
immutable value of three independent optional fields — maximum CPU time,
maximum memory usage, maximum produced-output size — where an absent field
means no limit imposed. -/
structure ResourceLimits where
  cpu_time : Option Nat
  file_size : Option Nat
  memory_size : Option Nat
deriving DecidableEq, Repr

/-- Modelled from the spec: the `ResourceLimits::new` constructor is not under
src/. The spec fixes the meaning of the three fields; the argument order
(cpu_time, file_size, memory_size) is fixed by consistency between the call
site in src (`ResourceLimits::new(Some(max_cpu_time), Some(max_native_bytecode_size),
Some(max_memory_usage))`, lines 92–96) and the spec sentence for the native path,
which draws the CPU-time limit from the configured maximum CPU time, the
output-size limit from the configured maximum native bytecode size, and the
memory limit from the configured maximum memory usage. -/
def ResourceLimits.new (cpu_time : Option Nat) (file_size : Option Nat)
    (memory_size : Option Nat) : ResourceLimits :=
  { cpu_time := cpu_time, file_size := file_size, memory_size := memory_size }

/-- A named temporary file as seen by this code: only its
`path().to_str()` result is consumed, an optional string. -/
structure TempFile where
  pathStr : Option String
deriving DecidableEq, Repr

/-- Modelled from the spec: `CompilationUtilError` lives in `crate::errors`,
which is not under src/. Variants follow the spec error taxonomy (section 7):
serialization error, I/O error, subprocess-classified failure
(`CompilationError`, constructed in src line 159), decode error, and
unexpected internal error (`UnexpectedError`, constructed in src lines 88 and
123). The `From` conversions applied by the `?` operator map serde
serialization errors, io errors and serde decode errors to the corresponding
variants. -/
inductive CompilationUtilError where
  | SerializationError (msg : String)
  | IoError (msg : String)
  | CompilationError (msg : String)
  | DecodeError (msg : String)
  | UnexpectedError (msg : String)
deriving DecidableEq, Repr

/-- Whether an UTF-8 continuation byte (0x80–0xBF). -/
def isCont (b : Nat) : Bool := 128 ≤ b && b ≤ 191

/-- UTF-8 decoding worker, structurally recursive on a fuel argument so the
kernel can evaluate it (each step consumes at least one byte, so fuel equal
to the byte count never runs out). Standard UTF-8 table: one-byte sequences
below 0x80; two-byte leads 0xC2–0xDF; three-byte leads 0xE0 (second byte
0xA0–0xBF), 0xE1–0xEC and 0xEE–0xEF (second byte a continuation), 0xED
(second byte 0x80–0x9F, excluding surrogates); four-byte leads 0xF0 (second
byte 0x90–0xBF), 0xF1–0xF3 (continuations), 0xF4 (second byte 0x80–0x8F). -/
def utf8DecodeFuel : Nat → List Nat → Option (List Char)
  | _, [] => some []
  | 0, _ :: _ => none
  | fuel + 1, b :: rest =>
    if b < 128 then
      (utf8DecodeFuel fuel rest).map (fun cs => Char.ofNat b :: cs)
    else if 194 ≤ b && b ≤ 223 then
      match rest with
      | c1 :: r =>
        if isCont c1 then
          (utf8DecodeFuel fuel r).map (fun cs => Char.ofNat ((b - 192) * 64 + (c1 - 128)) :: cs)
        else none
      | [] => none
    else if b = 224 then
      match rest with
      | c1 :: c2 :: r =>
        if (160 ≤ c1 && c1 ≤ 191) && isCont c2 then
          (utf8DecodeFuel fuel r).map
            (fun cs => Char.ofNat ((c1 - 128) * 64 + (c2 - 128)) :: cs)
        else none
      | _ => none
    else if (225 ≤ b && b ≤ 236) || (238 ≤ b && b ≤ 239) then
      match rest with
      | c1 :: c2 :: r =>
        if isCont c1 && isCont c2 then
          (utf8DecodeFuel fuel r).map
            (fun cs => Char.ofNat ((b - 224) * 4096 + (c1 - 128) * 64 + (c2 - 128)) :: cs)
        else none
      | _ => none
    else if b = 237 then
      match rest with
      | c1 :: c2 :: r =>
        if (128 ≤ c1 && c1 ≤ 159) && isCont c2 then
          (utf8DecodeFuel fuel r).map
            (fun cs => Char.ofNat (13 * 4096 + (c1 - 128) * 64 + (c2 - 128)) :: cs)
        else none
      | _ => none
    else if b = 240 then
      match rest with
      | c1 :: c2 :: c3 :: r =>
        if ((144 ≤ c1 && c1 ≤ 191) && isCont c2) && isCont c3 then
          (utf8DecodeFuel fuel r).map
            (fun cs =>
              Char.ofNat ((c1 - 128) * 4096 + (c2 - 128) * 64 + (c3 - 128)) :: cs)
        else none
      | _ => none
    else if 241 ≤ b && b ≤ 243 then
      match rest with
      | c1 :: c2 :: c3 :: r =>
        if (isCont c1 && isCont c2) && isCont c3 then
          (utf8DecodeFuel fuel r).map
            (fun cs =>
              Char.ofNat
                ((b - 240) * 262144 + (c1 - 128) * 4096 + (c2 - 128) * 64 + (c3 - 128)) :: cs)
        else none
      | _ => none
    else if b = 244 then
      match rest with
      | c1 :: c2 :: c3 :: r =>
        if ((128 ≤ c1 && c1 ≤ 143) && isCont c2) && isCont c3 then
          (utf8DecodeFuel fuel r).map
            (fun cs =>
              Char.ofNat
                (4 * 262144 + (c1 - 128) * 4096 + (c2 - 128) * 64 + (c3 - 128)) :: cs)
        else none
      | _ => none
    else none

/-- UTF-8 decoding of a byte list, modelling the validity checked by
`String::from_utf8`: `none` exactly on invalid UTF-8. -/
def utf8Decode (l : List Nat) : Option (List Char) :=
  utf8DecodeFuel l.length l

/-- `String::from_utf8` on the captured stderr bytes: the decoded string, or
`none` on invalid UTF-8. -/
def rustStringFromUtf8 (bytes : List Nat) : Option String :=
  (utf8Decode bytes).map (fun cs => String.mk cs)

/-- Lines 156–157 of src: decode the captured stderr bytes as UTF-8, falling
back to a fixed placeholder on failure (`unwrap_or_else`). -/
def stderrText (bytes : List Nat) : String :=
  match rustStringFromUtf8 bytes with
  | some s => s
  | none => "Failed to decode stderr output"

/-- Lines 140–151 of src (the unix branch): the advisory diagnosis selected by
matching on the terminating signal. -/
def signal_info (status : ExitStatus) : String :=
  match status.signal with
  | some 9 =>
    "SIGKILL (9): Process was forcefully killed (for example, because it exceeded CPU limit)."
  | some 25 => "SIGXFSZ (25): File size limit exceeded."
  | none =>
    "Process exited with non-zero status but no signal (likely a handled error, e.g., memory allocation failure)."
  | some sig =>
    String.append "Process terminated by unexpected signal: " (toString sig)

/-- Line 160 of src: the message of the classified compilation error, formatted
from the raw exit status, the decoded stderr text and the diagnosis. -/
def failure_message (out : ProcOutput) : String :=
  String.append "Exit status: "
    (String.append out.status.display
      (String.append "\nStderr: "
        (String.append (stderrText out.stderr)
          (String.append "\nSignal info: " (signal_info out.status)))))

/-- Lines 138–164 of src: classification of the captured child output — the
raw stdout bytes on success, a classified `CompilationError` otherwise. -/
def classify_output (out : ProcOutput) : Except CompilationUtilError (List Nat) :=
  if out.status.success then Except.ok out.stdout
  else Except.error (CompilationUtilError.CompilationError (failure_message out))

/-- The environment of one executor invocation: outcomes of the external
effects, in the order the code performs them. `run` is the behavior of the
child process as a function of the argument vector and the applied limits. -/
structure ExecEnv where
  serializeInput : Except String String
  newInputTempFile : Except String TempFile
  writeTempFile : Except String Unit
  run : List String → ResourceLimits → Except String ProcOutput

/-- Observable steps taken by an invocation, recorded in order. -/
inductive Event where
  | serializedInput (contents : String)
  | createdTempFile
  | wroteTempFile (contents : String)
  | appliedLimits (limits : ResourceLimits)
  | spawnedChild (binary : String) (args : List String) (limits : ResourceLimits)
deriving DecidableEq, Repr

/-- Lines 112–165 of src, `compile_with_args`: serialize the contract class,
write it to a fresh temporary file, build the argument vector as the temp-file
path followed by the additional arguments, apply the resource limits to the
not-yet-spawned command, run the child to completion capturing both streams,
and classify the result. Returns the event trace together with the result. -/
def compile_with_args (env : ExecEnv) (compiler_binary_path : String)
    (additional_args : List String) (resource_limits : ResourceLimits) :
    List Event × Except CompilationUtilError (List Nat) :=
  match env.serializeInput with
  | .error e => ([], .error (.SerializationError e))
  | .ok serialized_contract_class =>
    match env.newInputTempFile with
    | .error e => ([.serializedInput serialized_contract_class], .error (.IoError e))
    | .ok temp_file =>
      match env.writeTempFile with
      | .error e =>
        ([.serializedInput serialized_contract_class, .createdTempFile], .error (.IoError e))
      | .ok _ =>
        match temp_file.pathStr with
        | none =>
          ([.serializedInput serialized_contract_class, .createdTempFile,
            .wroteTempFile serialized_contract_class],
           .error (.UnexpectedError "Failed to get temporary file path"))
        | some temp_file_path =>
          let args := temp_file_path :: additional_args
          let trace := [Event.serializedInput serialized_contract_class,
                        Event.createdTempFile,
                        Event.wroteTempFile serialized_contract_class,
                        Event.appliedLimits resource_limits,
                        Event.spawnedChild compiler_binary_path args resource_limits]
          match env.run args resource_limits with
          | .error e => (trace, .error (.IoError e))
          | .ok compile_output => (trace, classify_output compile_output)

/-- Modelled from the spec: `SierraCompilationConfig` lives in
`crate::config`, which is not under src/. The fields are the ones consumed by
src (lines 61, 90, 93–95, 108) and listed by the spec configuration surface:
maximum bytecode size, optimization level, maximum CPU time, maximum memory
usage, maximum native bytecode size, and the failure-escalation flag. Numeric
fields are machine integers modelled as `Nat`. -/
structure SierraCompilationConfig where
  max_casm_bytecode_size : Nat
  optimization_level : Nat
  max_cpu_time : Nat
  max_native_bytecode_size : Nat
  max_memory_usage : Nat
  panic_on_compilation_failure : Bool
deriving DecidableEq, Repr

/-- Lines 25–31 of src: the public compiler, holding the configuration and the
binary paths resolved at construction. -/
structure CommandLineCompiler where
  config : SierraCompilationConfig
  path_to_starknet_sierra_compile_binary : String
  path_to_starknet_native_compile_binary : String

/-- Lines 52–76 of src, `SierraToCasmCompiler::compile`: build the fixed
additional arguments and an empty resource-limit specification, delegate to
the executor, and deserialize the captured stdout bytes as a
`CasmContractClass` (the deserializer `serde_json::from_slice` is an external
collaborator, supplied as `deserializeCasm`). -/
def CommandLineCompiler.compile {Casm : Type} (c : CommandLineCompiler) (env : ExecEnv)
    (deserializeCasm : List Nat → Except String Casm) :
    List Event × Except CompilationUtilError Casm :=
  let additional_args := ["--add-pythonic-hints", "--max-bytecode-size",
    toString c.config.max_casm_bytecode_size, "--allowed-libfuncs-list-name", "all"]
  let resource_limits := ResourceLimits.new none none none
  match compile_with_args env c.path_to_starknet_sierra_compile_binary
      additional_args resource_limits with
  | (trace, .error e) => (trace, .error e)
  | (trace, .ok stdout) =>
    match deserializeCasm stdout with
    | .error e => (trace, .error (.DecodeError e))
    | .ok casm => (trace, .ok casm)

/-- Outcome of the native path: an artifact, a returned error, or a Rust
panic (the `.unwrap()` on line 104 of src panics when the loader returns no
artifact despite the zero exit status — the unexpected-internal-error class
of the spec, a defect surface distinct from an ordinary returned failure). -/
inductive NativeOutcome (A : Type) where
  | ok (a : A)
  | err (e : CompilationUtilError)
  | panicked (msg : String)
deriving DecidableEq, Repr

/-- Lines 78–110 of src, `SierraToNativeCompiler::compile_to_native`: allocate
a destination temporary file, build the arguments (destination path, then
`--opt-level` with the stringified configured optimization level), build the
full resource-limit specification from configuration, delegate to the
executor, discard its stdout, and load the artifact from the destination path
(`AotContractExecutor::from_path`, an external collaborator supplied as
`aotFromPath`; its `Ok(None)` answer is `.unwrap()`-ed, a panic). -/
def CommandLineCompiler.compile_to_native {A : Type} (c : CommandLineCompiler)
    (env : ExecEnv) (newOutputTempFile : Except String TempFile)
    (aotFromPath : String → Except String (Option A)) :
    List Event × NativeOutcome A :=
  match newOutputTempFile with
  | .error e => ([], .err (.IoError e))
  | .ok output_file =>
    match output_file.pathStr with
    | none => ([], .err (.UnexpectedError "Failed to get output file path"))
    | some output_file_path =>
      let optimization_level := toString c.config.optimization_level
      let additional_args := [output_file_path, "--opt-level", optimization_level]
      let resource_limits := ResourceLimits.new (some c.config.max_cpu_time)
        (some c.config.max_native_bytecode_size) (some c.config.max_memory_usage)
      match compile_with_args env c.path_to_starknet_native_compile_binary
          additional_args resource_limits with
      | (trace, .error e) => (trace, .err e)
      | (trace, .ok _stdout) =>
        match aotFromPath output_file_path with
        | .error e => (trace, .err (.UnexpectedError e))
        | .ok none => (trace, .panicked "called Option::unwrap on a None value")
        | .ok (some a) => (trace, .ok a)

/-- Line 107–109 of src: the configuration-driven escalation policy flag. -/
def CommandLineCompiler.panic_on_compilation_failure (c : CommandLineCompiler) : Bool :=
  c.config.panic_on_compilation_failure

/-- The resource-limit specifications handed to the executor along a trace,
one per spawned child. -/
def spawnLimits (t : List Event) : List ResourceLimits :=
  t.filterMap fun e =>
    match e with
    | .spawnedChild _ _ l => some l
    | _ => none

/-- The argument vectors of the spawned children along a trace. -/
def spawnArgs (t : List Event) : List (List String) :=
  t.filterMap fun e =>
    match e with
    | .spawnedChild _ a _ => some a
    | _ => none

/-- The executor reached the child-spawning point: serialization succeeded,
the input temporary file was created with a textual path `p`, and the write
succeeded. -/
def ReachesChild (env : ExecEnv) (p : String) : Prop :=
  (∃ s, env.serializeInput = Except.ok s) ∧
  (∃ tf, env.newInputTempFile = Except.ok tf ∧ tf.pathStr = some p) ∧
  env.writeTempFile = Except.ok ()

/-- Boolean success test of an `Except` result. -/
def exceptIsOk {ε α : Type} : Except ε α → Bool
  | .ok _ => true
  | .error _ => false

/-- When the executor reaches the child, the invocation is the five recorded
steps in order and the result is the classification of the single run. -/
theorem reaches_child_eq {env : ExecEnv} {p : String} (hr : ReachesChild env p)
    (b : String) (extra : List String) (limits : ResourceLimits) :
    ∃ s, env.serializeInput = Except.ok s ∧
      compile_with_args env b extra limits =
        ([Event.serializedInput s, Event.createdTempFile, Event.wroteTempFile s,
          Event.appliedLimits limits, Event.spawnedChild b (p :: extra) limits],
         match env.run (p :: extra) limits with
         | Except.error e => Except.error (CompilationUtilError.IoError e)
         | Except.ok out => classify_output out) := by
  obtain ⟨⟨s, hs⟩, ⟨tf, htf, hp⟩, hw⟩ := hr
  refine ⟨s, hs, ?_⟩
  simp only [compile_with_args, hs, htf, hw, hp]
  rcases env.run (p :: extra) limits with e | out <;> rfl

/-- A spawn event in the executor trace pins down the whole invocation:
all earlier steps succeeded and the trace is exactly the five steps. -/
theorem spawn_mem_shape {env : ExecEnv} {b : String} {extra : List String}
    {limits : ResourceLimits} {b2 : String} {a : List String} {l2 : ResourceLimits}
    (h : Event.spawnedChild b2 a l2 ∈ (compile_with_args env b extra limits).1) :
    ∃ s p, ReachesChild env p ∧ env.serializeInput = Except.ok s ∧
      b2 = b ∧ l2 = limits ∧ a = p :: extra ∧
      (compile_with_args env b extra limits).1 =
        [Event.serializedInput s, Event.createdTempFile, Event.wroteTempFile s,
         Event.appliedLimits limits, Event.spawnedChild b (p :: extra) limits] := by
  rcases hs : env.serializeInput with e | s
  · simp [compile_with_args, hs] at h
  rcases htf : env.newInputTempFile with e | tf
  · simp [compile_with_args, hs, htf] at h
  rcases hw : env.writeTempFile with e | u
  · simp [compile_with_args, hs, htf, hw] at h
  rcases hp : tf.pathStr with _ | p
  · simp [compile_with_args, hs, htf, hw, hp] at h
  cases u
  have hrc : ReachesChild env p := ⟨⟨s, hs⟩, ⟨tf, htf, hp⟩, hw⟩
  obtain ⟨s2, hs2, heq⟩ := reaches_child_eq hrc b extra limits
  have hss : s = s2 := by rw [hs] at hs2; injection hs2
  subst hss
  have htr : (compile_with_args env b extra limits).1 =
      [Event.serializedInput s, Event.createdTempFile, Event.wroteTempFile s,
       Event.appliedLimits limits, Event.spawnedChild b (p :: extra) limits] := by
    rw [heq]
  rw [htr] at h
  simp only [List.mem_cons, List.not_mem_nil, or_false] at h
  rcases h with h | h | h | h | h
  · simp at h
  · simp at h
  · simp at h
  · simp at h
  · injection h with hb ha hl
    exact ⟨s, p, hrc, rfl, hb, hl, ha, htr⟩

/-- In every executor trace there is at most one spawned child (no retry). -/
theorem spawnArgs_length_le_one (env : ExecEnv) (b : String) (extra : List String)
    (limits : ResourceLimits) :
    (spawnArgs (compile_with_args env b extra limits).1).length ≤ 1 := by
  rcases hs : env.serializeInput with e | s
  · simp [compile_with_args, hs, spawnArgs]
  rcases htf : env.newInputTempFile with e | tf
  · simp [compile_with_args, hs, htf, spawnArgs]
  rcases hw : env.writeTempFile with e | u
  · simp [compile_with_args, hs, htf, hw, spawnArgs]
  rcases hp : tf.pathStr with _ | p
  · simp [compile_with_args, hs, htf, hw, hp, spawnArgs]
  rcases hr : env.run (p :: extra) limits with e | out <;>
    simp [compile_with_args, hs, htf, hw, hp, hr, spawnArgs]

/-- A limit seen in `spawnLimits` comes from some spawn event of the trace. -/
theorem spawnLimits_mem {t : List Event} {l : ResourceLimits} (h : l ∈ spawnLimits t) :
    ∃ b a, Event.spawnedChild b a l ∈ t := by
  simp only [spawnLimits, List.mem_filterMap] at h
  obtain ⟨e, he, hm⟩ := h
  cases e <;> simp only [Option.some.injEq, reduceCtorEq] at hm
  case spawnedChild b a l2 =>
    exact ⟨b, a, by rwa [hm] at he⟩

/-- The casm compile operation passes its trace through from the executor. -/
theorem compile_trace_eq {Casm : Type} (c : CommandLineCompiler) (env : ExecEnv)
    (des : List Nat → Except String Casm) :
    (c.compile env des).1 =
      (compile_with_args env c.path_to_starknet_sierra_compile_binary
        ["--add-pythonic-hints", "--max-bytecode-size",
         toString c.config.max_casm_bytecode_size, "--allowed-libfuncs-list-name", "all"]
        (ResourceLimits.new none none none)).1 := by
  rcases hcw : compile_with_args env c.path_to_starknet_sierra_compile_binary
      ["--add-pythonic-hints", "--max-bytecode-size",
       toString c.config.max_casm_bytecode_size, "--allowed-libfuncs-list-name", "all"]
      (ResourceLimits.new none none none) with ⟨t, r⟩
  simp only [CommandLineCompiler.compile, hcw]
  rcases r with e | stdout
  · rfl
  · rcases hd : des stdout with e | casm <;> simp [hd]

/-- A spawn event in the native trace pins down the destination temporary
file, the binary, the full limit specification and the argument shape. -/
theorem native_spawn_mem {A : Type} {c : CommandLineCompiler} {env : ExecEnv}
    {nOut : Except String TempFile} {aot : String → Except String (Option A)}
    {b2 : String} {a : List String} {l2 : ResourceLimits}
    (h : Event.spawnedChild b2 a l2 ∈ (CommandLineCompiler.compile_to_native c env nOut aot).1) :
    ∃ tf p, nOut = Except.ok tf ∧ tf.pathStr = some p ∧
      b2 = c.path_to_starknet_native_compile_binary ∧
      l2 = ResourceLimits.new (some c.config.max_cpu_time)
        (some c.config.max_native_bytecode_size) (some c.config.max_memory_usage) ∧
      ∃ q, a = q :: p :: ["--opt-level", toString c.config.optimization_level] := by
  rcases hn : nOut with e | tf
  · simp [CommandLineCompiler.compile_to_native, hn] at h
  rcases hp : tf.pathStr with _ | p
  · simp [CommandLineCompiler.compile_to_native, hn, hp] at h
  have htr : (CommandLineCompiler.compile_to_native c env nOut aot).1 =
      (compile_with_args env c.path_to_starknet_native_compile_binary
        [p, "--opt-level", toString c.config.optimization_level]
        (ResourceLimits.new (some c.config.max_cpu_time)
          (some c.config.max_native_bytecode_size) (some c.config.max_memory_usage))).1 := by
    rcases hcw : compile_with_args env c.path_to_starknet_native_compile_binary
        [p, "--opt-level", toString c.config.optimization_level]
        (ResourceLimits.new (some c.config.max_cpu_time)
          (some c.config.max_native_bytecode_size) (some c.config.max_memory_usage))
      with ⟨t, r⟩
    simp only [CommandLineCompiler.compile_to_native, hn, hp, hcw]
    rcases r with e | stdout
    · rfl
    · rcases ha : aot p with e | oa
      · simp [ha]
      · rcases oa with _ | art <;> simp [ha]
  rw [htr] at h
  obtain ⟨s, q, _, _, hb, hl, ha, _⟩ := spawn_mem_shape h
  exact ⟨tf, p, rfl, hp, hb, hl, q, ha⟩

/-- Concrete configuration used by the evaluation witnesses. -/
def cfg0 : SierraCompilationConfig :=
  { max_casm_bytecode_size := 100, optimization_level := 2, max_cpu_time := 30,
    max_native_bytecode_size := 200, max_memory_usage := 300,
    panic_on_compilation_failure := false }

/-- Concrete compiler used by the evaluation witnesses. -/
def c0 : CommandLineCompiler :=
  { config := cfg0, path_to_starknet_sierra_compile_binary := "starknet-sierra-compile",
    path_to_starknet_native_compile_binary := "starknet-native-compile" }

/-- Concrete input temporary file for the witnesses. -/
def tfIn : TempFile := { pathStr := some "/tmp/in" }

/-- Concrete destination temporary file for the native witnesses. -/
def tfOut : TempFile := { pathStr := some "/tmp/out" }

/-- Environment whose child exits 0 with stdout bytes `[1, 2, 3]`. -/
def envOk : ExecEnv :=
  { serializeInput := Except.ok "input", newInputTempFile := Except.ok tfIn,
    writeTempFile := Except.ok (),
    run := fun _ _ => Except.ok { status := ExitStatus.exited 0, stdout := [1, 2, 3], stderr := [] } }

/-- The child output observed in `envSig9`. -/
def outSig9 : ProcOutput :=
  { status := ExitStatus.signaled 9, stdout := [], stderr := [104, 105] }

/-- Environment whose child is terminated by signal 9 with stderr "hi". -/
def envSig9 : ExecEnv :=
  { serializeInput := Except.ok "input", newInputTempFile := Except.ok tfIn,
    writeTempFile := Except.ok (), run := fun _ _ => Except.ok outSig9 }

/-- The child output observed in `envBadStderr`: exit code 1 with a stderr
byte stream that is not valid UTF-8. -/
def outBadStderr : ProcOutput :=
  { status := ExitStatus.exited 1, stdout := [], stderr := [255] }

/-- Environment whose child exits 1 writing invalid UTF-8 on stderr. -/
def envBadStderr : ExecEnv :=
  { serializeInput := Except.ok "input", newInputTempFile := Except.ok tfIn,
    writeTempFile := Except.ok (), run := fun _ _ => Except.ok outBadStderr }

/-- Concrete casm deserializer for the witnesses: the byte count. -/
def desLen : List Nat → Except String Nat := fun bytes => Except.ok bytes.length

/-- Concrete native artifact loader answering with an artifact. -/
def aotSome : String → Except String (Option Nat) := fun _ => Except.ok (some 7)

/-- Concrete native artifact loader answering `Ok(None)`. -/
def aotNone : String → Except String (Option Nat) := fun _ => Except.ok none

/-- The diagnosis for a terminating signal other than 9 and 25 reports the
signal number verbatim. -/
theorem signal_info_other {sg : Nat} (h9 : sg ≠ 9) (h25 : sg ≠ 25) :
    signal_info (ExitStatus.signaled sg) =
      String.append "Process terminated by unexpected signal: " (toString sg) := by
  unfold signal_info
  simp only [ExitStatus.signal]

/-- Claim C1: on POSIX, an unsuccessful child termination is classified by
signal — signal 9 as a resource-exhaustion kill, signal 25 as an
output-size-limit overrun, a non-zero exit with no signal as a handled
failure, and any other signal verbatim; the returned error carries the
diagnosis, the raw exit status and the captured stderr text, and the
diagnosis never changes which branch of control flow is taken. -/
theorem c1_signal_classification (env : ExecEnv) (b : String) (extra : List String)
    (limits : ResourceLimits) (p : String) (out : ProcOutput)
    (hr : ReachesChild env p) (hrun : env.run (p :: extra) limits = Except.ok out)
    (hfail : out.status.success = false) :
    (compile_with_args env b extra limits).2 =
        Except.error (CompilationUtilError.CompilationError
          (String.append "Exit status: "
            (String.append out.status.display
              (String.append "\nStderr: "
                (String.append (stderrText out.stderr)
                  (String.append "\nSignal info: " (signal_info out.status))))))) ∧
    (out.status.signal = some 9 →
      signal_info out.status =
        "SIGKILL (9): Process was forcefully killed (for example, because it exceeded CPU limit).") ∧
    (out.status.signal = some 25 →
      signal_info out.status = "SIGXFSZ (25): File size limit exceeded.") ∧
    (out.status.signal = none →
      signal_info out.status =
        "Process exited with non-zero status but no signal (likely a handled error, e.g., memory allocation failure).") ∧
    (∀ sg, out.status.signal = some sg → sg ≠ 9 → sg ≠ 25 →
      signal_info out.status =
        String.append "Process terminated by unexpected signal: " (toString sg)) ∧
    (∀ out2 : ProcOutput, out2.status.success = false →
      exceptIsOk (classify_output out2) = exceptIsOk (classify_output out)) := by
  obtain ⟨s, hs, heq⟩ := reaches_child_eq hr b extra limits
  have hres : (compile_with_args env b extra limits).2 = classify_output out := by
    rw [heq]; simp [hrun]
  refine ⟨?_, ?_, ?_, ?_, ?_, ?_⟩
  · rw [hres]; simp [classify_output, hfail, failure_message]
  · intro h9
    rcases hst : out.status with code | sg
    · rw [hst] at h9; simp [ExitStatus.signal] at h9
    · rw [hst] at h9; simp only [ExitStatus.signal, Option.some.injEq] at h9
      rw [h9]; decide
  · intro h25
    rcases hst : out.status with code | sg
    · rw [hst] at h25; simp [ExitStatus.signal] at h25
    · rw [hst] at h25; simp only [ExitStatus.signal, Option.some.injEq] at h25
      rw [h25]; decide
  · intro hn
    rcases hst : out.status with code | sg
    · rfl
    · rw [hst] at hn; simp [ExitStatus.signal] at hn
  · intro sg hsig h9 h25
    rcases hst : out.status with code | sg2
    · rw [hst] at hsig; simp [ExitStatus.signal] at hsig
    · rw [hst] at hsig; simp only [ExitStatus.signal, Option.some.injEq] at hsig
      rw [hsig]
      exact signal_info_other h9 h25
  · intro out2 h2
    simp [classify_output, h2, hfail, exceptIsOk]

/-- Claim C1, evaluation witness: a child terminated by signal 9 yields the
classified resource-exhaustion error with status, stderr and diagnosis. -/
theorem c1_signal_classification_witness :
    (compile_with_args envSig9 "starknet-sierra-compile" ["--flag"]
        (ResourceLimits.new none none none)).2 =
      Except.error (CompilationUtilError.CompilationError
        "Exit status: signal: 9\nStderr: hi\nSignal info: SIGKILL (9): Process was forcefully killed (for example, because it exceeded CPU limit).") := by
  have h := (c1_signal_classification envSig9 "starknet-sierra-compile" ["--flag"]
    (ResourceLimits.new none none none) "/tmp/in" outSig9
    ⟨⟨"input", rfl⟩, ⟨tfIn, rfl, rfl⟩, rfl⟩ rfl rfl).1
  rw [h]
  exact congrArg Except.error (by decide)

/-- Claim C2, counterexample: at a concrete invocation of the
compile-to-bytecode operation, the resource-limit specification handed to
the executor has all three fields absent — in particular it imposes no
maximum output size, contradicting the claim that exactly one limit, a
maximum output size, is imposed (src line 66 passes `None, None, None`). -/
theorem c2_counterexample :
    spawnLimits ((CommandLineCompiler.compile c0 envOk desLen).1) =
      [ResourceLimits.new none none none] ∧
    (ResourceLimits.new none none none).file_size = none ∧
    (ResourceLimits.new none none none).cpu_time = none ∧
    (ResourceLimits.new none none none).memory_size = none := by
  refine ⟨by decide, rfl, rfl, rfl⟩

/-- Claim C2 as amended: for every call to the compile-to-bytecode operation,
the resource-limit specification handed to the executor imposes no limits at
all — the CPU-time, memory and output-size fields are all absent. -/
theorem c2_all_limits_absent {Casm : Type} (c : CommandLineCompiler) (env : ExecEnv)
    (des : List Nat → Except String Casm) (l : ResourceLimits)
    (h : l ∈ spawnLimits ((c.compile env des).1)) :
    l = ResourceLimits.new none none none ∧
    l.cpu_time = none ∧ l.file_size = none ∧ l.memory_size = none := by
  obtain ⟨b2, a, hm⟩ := spawnLimits_mem h
  rw [compile_trace_eq] at hm
  obtain ⟨s, p, _, _, _, hl, _, _⟩ := spawn_mem_shape hm
  exact ⟨hl, by rw [hl]; rfl, by rw [hl]; rfl, by rw [hl]; rfl⟩

/-- Claim C2 (amended), evaluation witness at a concrete invocation. -/
theorem c2_all_limits_absent_witness :
    ResourceLimits.new none none none = ResourceLimits.new none none none ∧
    (ResourceLimits.new none none none).cpu_time = none ∧
    (ResourceLimits.new none none none).file_size = none ∧
    (ResourceLimits.new none none none).memory_size = none :=
  c2_all_limits_absent c0 envOk desLen (ResourceLimits.new none none none) (by decide)

/-- Claim C3: every resource-limit specification handed to the executor by
the compile-to-native operation has all three limits present, drawn from the
corresponding configuration fields: the CPU-time limit from the configured
maximum CPU time, the memory limit from the configured maximum memory usage,
and the output-size limit from the configured maximum native bytecode
size. -/
theorem c3_native_limits {A : Type} (c : CommandLineCompiler) (env : ExecEnv)
    (nOut : Except String TempFile) (aot : String → Except String (Option A))
    (l : ResourceLimits)
    (h : l ∈ spawnLimits ((CommandLineCompiler.compile_to_native c env nOut aot).1)) :
    l = ResourceLimits.new (some c.config.max_cpu_time)
        (some c.config.max_native_bytecode_size) (some c.config.max_memory_usage) ∧
    l.cpu_time = some c.config.max_cpu_time ∧
    l.memory_size = some c.config.max_memory_usage ∧
    l.file_size = some c.config.max_native_bytecode_size := by
  obtain ⟨b2, a, hm⟩ := spawnLimits_mem h
  obtain ⟨tf, p, _, _, _, hl, _⟩ := native_spawn_mem hm
  exact ⟨hl, by rw [hl]; rfl, by rw [hl]; rfl, by rw [hl]; rfl⟩

/-- Claim C3, evaluation witness at a concrete invocation. -/
theorem c3_native_limits_witness :
    ResourceLimits.new (some 30) (some 200) (some 300) =
      ResourceLimits.new (some cfg0.max_cpu_time) (some cfg0.max_native_bytecode_size)
        (some cfg0.max_memory_usage) ∧
    (ResourceLimits.new (some 30) (some 200) (some 300)).cpu_time = some cfg0.max_cpu_time ∧
    (ResourceLimits.new (some 30) (some 200) (some 300)).memory_size = some cfg0.max_memory_usage ∧
    (ResourceLimits.new (some 30) (some 200) (some 300)).file_size =
      some cfg0.max_native_bytecode_size :=
  c3_native_limits c0 envOk (Except.ok tfOut) aotSome
    (ResourceLimits.new (some 30) (some 200) (some 300)) (by decide)

/-- Claim C4: an executor invocation succeeds exactly when the child exit
status is success (exit code 0); on success the returned value is exactly the
captured stdout bytes, and every non-success status yields an error. -/
theorem c4_success_iff (env : ExecEnv) (b : String) (extra : List String)
    (limits : ResourceLimits) (p : String) (out : ProcOutput)
    (hr : ReachesChild env p) (hrun : env.run (p :: extra) limits = Except.ok out) :
    exceptIsOk (compile_with_args env b extra limits).2 = out.status.success ∧
    (out.status.success = true →
      (compile_with_args env b extra limits).2 = Except.ok out.stdout) ∧
    (out.status.success = false →
      ∃ msg, (compile_with_args env b extra limits).2 =
        Except.error (CompilationUtilError.CompilationError msg)) ∧
    (∀ v, (compile_with_args env b extra limits).2 = Except.ok v → v = out.stdout) := by
  obtain ⟨s, hs, heq⟩ := reaches_child_eq hr b extra limits
  have hres : (compile_with_args env b extra limits).2 = classify_output out := by
    rw [heq]; simp [hrun]
  rcases hsucc : out.status.success with _ | _
  · refine ⟨?_, by intro h; simp at h, ?_, ?_⟩
    · rw [hres]; simp [classify_output, hsucc, exceptIsOk]
    · intro _; exact ⟨failure_message out, by rw [hres]; simp [classify_output, hsucc]⟩
    · intro v hv
      rw [hres] at hv; simp [classify_output, hsucc] at hv
  · refine ⟨?_, ?_, by intro h; simp at h, ?_⟩
    · rw [hres]; simp [classify_output, hsucc, exceptIsOk]
    · intro _; rw [hres]; simp [classify_output, hsucc]
    · intro v hv
      rw [hres] at hv; simp [classify_output, hsucc] at hv
      exact hv.symm

/-- Claim C4, evaluation witness: a child exiting 0 yields exactly its
captured stdout bytes. -/
theorem c4_success_iff_witness :
    (compile_with_args envOk "starknet-sierra-compile" ["--flag"]
        (ResourceLimits.new none none none)).2 = Except.ok [1, 2, 3] :=
  (c4_success_iff envOk "starknet-sierra-compile" ["--flag"]
    (ResourceLimits.new none none none) "/tmp/in"
    { status := ExitStatus.exited 0, stdout := [1, 2, 3], stderr := [] }
    ⟨⟨"input", rfl⟩, ⟨tfIn, rfl, rfl⟩, rfl⟩ rfl).2.1 rfl

/-- Claim C5: on the native path, when the destination temp-file path is not
textual the call returns the unexpected-error with the fixed message; when the
executor succeeds (the child exited 0), the artifact is obtained by loading
from the destination path handed to the child as its first additional
argument — the captured stdout plays no role — with a loader answer of no
artifact surfacing as a panic (the unexpected-internal-error class, not an
ordinary returned failure), and a loader error propagating as an error. -/
theorem c5_native_artifact {A : Type} (c : CommandLineCompiler) (env : ExecEnv)
    (nOut : Except String TempFile) (aot : String → Except String (Option A)) :
    (∀ tf, nOut = Except.ok tf → tf.pathStr = none →
      (CommandLineCompiler.compile_to_native c env nOut aot).2 =
        NativeOutcome.err (CompilationUtilError.UnexpectedError "Failed to get output file path")) ∧
    (∀ tf p bytes, nOut = Except.ok tf → tf.pathStr = some p →
      (compile_with_args env c.path_to_starknet_native_compile_binary
          [p, "--opt-level", toString c.config.optimization_level]
          (ResourceLimits.new (some c.config.max_cpu_time)
            (some c.config.max_native_bytecode_size) (some c.config.max_memory_usage))).2 =
        Except.ok bytes →
      ((∀ art, aot p = Except.ok (some art) →
          (CommandLineCompiler.compile_to_native c env nOut aot).2 = NativeOutcome.ok art) ∧
       (aot p = Except.ok none →
          (CommandLineCompiler.compile_to_native c env nOut aot).2 =
            NativeOutcome.panicked "called Option::unwrap on a None value") ∧
       (∀ e, aot p = Except.error e →
          (CommandLineCompiler.compile_to_native c env nOut aot).2 =
            NativeOutcome.err (CompilationUtilError.UnexpectedError e)))) := by
  constructor
  · intro tf hn hp
    simp [CommandLineCompiler.compile_to_native, hn, hp]
  · intro tf p bytes hn hp hexec
    rcases hcw : compile_with_args env c.path_to_starknet_native_compile_binary
        [p, "--opt-level", toString c.config.optimization_level]
        (ResourceLimits.new (some c.config.max_cpu_time)
          (some c.config.max_native_bytecode_size) (some c.config.max_memory_usage))
      with ⟨t, r⟩
    rw [hcw] at hexec
    simp only at hexec
    subst hexec
    refine ⟨?_, ?_, ?_⟩
    · intro art ha
      simp [CommandLineCompiler.compile_to_native, hn, hp, hcw, ha]
    · intro ha
      simp [CommandLineCompiler.compile_to_native, hn, hp, hcw, ha]
    · intro e ha
      simp [CommandLineCompiler.compile_to_native, hn, hp, hcw, ha]

/-- Claim C5, evaluation witness: with a loader answering no artifact despite
the zero exit status, the concrete call panics rather than returning an
ordinary failure. -/
theorem c5_native_artifact_witness :
    (CommandLineCompiler.compile_to_native c0 envOk (Except.ok tfOut) aotNone).2 =
      NativeOutcome.panicked "called Option::unwrap on a None value" :=
  ((c5_native_artifact c0 envOk (Except.ok tfOut) aotNone).2 tfOut "/tmp/out" [1, 2, 3]
    rfl rfl rfl).2.1 rfl

/-- Claim C6: the compile-to-bytecode operation returns the deserialization
of the captured stdout bytes when the executor succeeds; it fails exactly
when the input fails to serialize (as a serialization error), the executor
fails (its classified error propagated unchanged), or the output bytes fail
to decode (as a decode error), and no internal error is swallowed. -/
theorem c6_casm_pipeline {Casm : Type} (c : CommandLineCompiler) (env : ExecEnv)
    (des : List Nat → Except String Casm) :
    (∀ e, env.serializeInput = Except.error e →
      (c.compile env des).2 = Except.error (CompilationUtilError.SerializationError e)) ∧
    (∀ e, (compile_with_args env c.path_to_starknet_sierra_compile_binary
        ["--add-pythonic-hints", "--max-bytecode-size",
         toString c.config.max_casm_bytecode_size, "--allowed-libfuncs-list-name", "all"]
        (ResourceLimits.new none none none)).2 = Except.error e →
      (c.compile env des).2 = Except.error e) ∧
    (∀ bytes, (compile_with_args env c.path_to_starknet_sierra_compile_binary
        ["--add-pythonic-hints", "--max-bytecode-size",
         toString c.config.max_casm_bytecode_size, "--allowed-libfuncs-list-name", "all"]
        (ResourceLimits.new none none none)).2 = Except.ok bytes →
      (∀ casm, des bytes = Except.ok casm → (c.compile env des).2 = Except.ok casm) ∧
      (∀ e, des bytes = Except.error e →
        (c.compile env des).2 = Except.error (CompilationUtilError.DecodeError e))) ∧
    (exceptIsOk (c.compile env des).2 = true ↔
      ∃ bytes, (compile_with_args env c.path_to_starknet_sierra_compile_binary
        ["--add-pythonic-hints", "--max-bytecode-size",
         toString c.config.max_casm_bytecode_size, "--allowed-libfuncs-list-name", "all"]
        (ResourceLimits.new none none none)).2 = Except.ok bytes ∧
        exceptIsOk (des bytes) = true) := by
  refine ⟨?_, ?_, ?_, ?_⟩
  · intro e hs
    simp [CommandLineCompiler.compile, compile_with_args, hs]
  · intro e herr
    rcases hcw : compile_with_args env c.path_to_starknet_sierra_compile_binary
        ["--add-pythonic-hints", "--max-bytecode-size",
         toString c.config.max_casm_bytecode_size, "--allowed-libfuncs-list-name", "all"]
        (ResourceLimits.new none none none) with ⟨t, r⟩
    rw [hcw] at herr
    simp only at herr
    subst herr
    simp [CommandLineCompiler.compile, hcw]
  · intro bytes hok
    rcases hcw : compile_with_args env c.path_to_starknet_sierra_compile_binary
        ["--add-pythonic-hints", "--max-bytecode-size",
         toString c.config.max_casm_bytecode_size, "--allowed-libfuncs-list-name", "all"]
        (ResourceLimits.new none none none) with ⟨t, r⟩
    rw [hcw] at hok
    simp only at hok
    subst hok
    constructor
    · intro casm hd
      simp [CommandLineCompiler.compile, hcw, hd]
    · intro e hd
      simp [CommandLineCompiler.compile, hcw, hd]
  · rcases hcw : compile_with_args env c.path_to_starknet_sierra_compile_binary
        ["--add-pythonic-hints", "--max-bytecode-size",
         toString c.config.max_casm_bytecode_size, "--allowed-libfuncs-list-name", "all"]
        (ResourceLimits.new none none none) with ⟨t, r⟩
    rcases r with e | bytes
    · simp [CommandLineCompiler.compile, hcw, exceptIsOk]
    · rcases hd : des bytes with e2 | casm <;>
        simp [CommandLineCompiler.compile, hcw, hd, exceptIsOk]

/-- Claim C6, evaluation witness: with a child exiting 0 with stdout
`[1, 2, 3]` and a deserializer computing the byte count, the concrete call
returns the deserialized value 3. -/
theorem c6_casm_pipeline_witness :
    (CommandLineCompiler.compile c0 envOk desLen).2 = Except.ok 3 :=
  ((c6_casm_pipeline c0 envOk desLen).2.2.1 [1, 2, 3] rfl).1 3 rfl

/-- Claim C7: every executor invocation spawns at most one child (no retry),
and whenever a child is spawned the whole invocation consists of exactly
these steps in this order — serialize the input, create the temporary file,
write the serialized payload to it, apply the resource limiter to the
not-yet-spawned process, spawn once and block capturing the output — with
the argument vector being the temporary-file path followed by the extra
arguments. -/
theorem c7_step_order (env : ExecEnv) (b : String) (extra : List String)
    (limits : ResourceLimits) :
    (spawnArgs (compile_with_args env b extra limits).1).length ≤ 1 ∧
    (∀ b2 a l2, Event.spawnedChild b2 a l2 ∈ (compile_with_args env b extra limits).1 →
      ∃ s p, env.serializeInput = Except.ok s ∧
        (∃ tf, env.newInputTempFile = Except.ok tf ∧ tf.pathStr = some p) ∧
        env.writeTempFile = Except.ok () ∧
        b2 = b ∧ l2 = limits ∧ a = p :: extra ∧
        (compile_with_args env b extra limits).1 =
          [Event.serializedInput s, Event.createdTempFile, Event.wroteTempFile s,
           Event.appliedLimits limits, Event.spawnedChild b (p :: extra) limits]) := by
  refine ⟨spawnArgs_length_le_one env b extra limits, ?_⟩
  intro b2 a l2 h
  obtain ⟨s, p, hrc, hs, hb, hl, ha, htr⟩ := spawn_mem_shape h
  obtain ⟨⟨s1, hs1⟩, ⟨tf, htf, hp⟩, hw⟩ := hrc
  exact ⟨s, p, hs, ⟨tf, htf, hp⟩, hw, hb, hl, ha, htr⟩

/-- Claim C7, evaluation witness: the concrete trace is the five steps in
order, ending in the single spawn with argument vector
temp-file path followed by the extra arguments. -/
theorem c7_step_order_witness :
    (compile_with_args envOk "starknet-sierra-compile" ["--flag"]
        (ResourceLimits.new none none none)).1 =
      [Event.serializedInput "input", Event.createdTempFile, Event.wroteTempFile "input",
       Event.appliedLimits (ResourceLimits.new none none none),
       Event.spawnedChild "starknet-sierra-compile" ["/tmp/in", "--flag"]
         (ResourceLimits.new none none none)] := by
  obtain ⟨s, p, hs, htf, hw, hb, hl, ha, htr⟩ :=
    (c7_step_order envOk "starknet-sierra-compile" ["--flag"]
      (ResourceLimits.new none none none)).2 "starknet-sierra-compile"
      ["/tmp/in", "--flag"] (ResourceLimits.new none none none) (by decide)
  injection ha with hp1 hp2
  subst hp1
  have hs2 : "input" = s := by
    have h := hs
    simp only [envOk, Except.ok.injEq] at h
    exact h
  subst hs2
  exact htr

/-- Claim C8: the extra arguments the compile-to-bytecode operation passes to
the child are exactly the input-dialect compatibility flag, the
maximum-bytecode-size flag with the configured size stringified, and the
allow-all-library-functions flag. -/
theorem c8_casm_args {Casm : Type} (c : CommandLineCompiler) (env : ExecEnv)
    (des : List Nat → Except String Casm) :
    ∀ b2 a l2, Event.spawnedChild b2 a l2 ∈ (c.compile env des).1 →
      ∃ p, a = p :: ["--add-pythonic-hints", "--max-bytecode-size",
        toString c.config.max_casm_bytecode_size, "--allowed-libfuncs-list-name", "all"] := by
  intro b2 a l2 h
  rw [compile_trace_eq] at h
  obtain ⟨s, p, _, _, _, _, ha, _⟩ := spawn_mem_shape h
  exact ⟨p, ha⟩

/-- Claim C8, evaluation witness at a concrete invocation (the configured
maximum bytecode size 100 is stringified into the argument vector). -/
theorem c8_casm_args_witness :
    ["/tmp/in", "--add-pythonic-hints", "--max-bytecode-size", "100",
     "--allowed-libfuncs-list-name", "all"] =
      "/tmp/in" :: ["--add-pythonic-hints", "--max-bytecode-size",
        toString c0.config.max_casm_bytecode_size, "--allowed-libfuncs-list-name", "all"] := by
  obtain ⟨p, hp⟩ := c8_casm_args c0 envOk desLen "starknet-sierra-compile"
    ["/tmp/in", "--add-pythonic-hints", "--max-bytecode-size", "100",
     "--allowed-libfuncs-list-name", "all"]
    (ResourceLimits.new none none none) (by decide)
  injection hp with h1 h2
  subst h1
  exact congrArg (List.cons "/tmp/in") h2

/-- Claim C10: when the child terminates unsuccessfully and the captured
stderr bytes are not valid UTF-8, the call still returns the classified
compilation error, with the stderr portion of the message replaced by the
fixed placeholder text. -/
theorem c10_stderr_placeholder (env : ExecEnv) (b : String) (extra : List String)
    (limits : ResourceLimits) (p : String) (out : ProcOutput)
    (hr : ReachesChild env p) (hrun : env.run (p :: extra) limits = Except.ok out)
    (hfail : out.status.success = false)
    (hbad : utf8Decode out.stderr = none) :
    (compile_with_args env b extra limits).2 =
      Except.error (CompilationUtilError.CompilationError
        (String.append "Exit status: "
          (String.append out.status.display
            (String.append "\nStderr: "
              (String.append "Failed to decode stderr output"
                (String.append "\nSignal info: " (signal_info out.status))))))) := by
  obtain ⟨s, hs, heq⟩ := reaches_child_eq hr b extra limits
  have hres : (compile_with_args env b extra limits).2 = classify_output out := by
    rw [heq]; simp [hrun]
  rw [hres]
  simp [classify_output, hfail, failure_message, stderrText, rustStringFromUtf8, hbad]

set_option maxRecDepth 4000 in
/-- Claim C10, evaluation witness: a child exiting 1 with the invalid UTF-8
stderr byte 0xFF yields the classified error with the placeholder text. -/
theorem c10_stderr_placeholder_witness :
    (compile_with_args envBadStderr "starknet-sierra-compile" ["--flag"]
        (ResourceLimits.new none none none)).2 =
      Except.error (CompilationUtilError.CompilationError
        "Exit status: exit status: 1\nStderr: Failed to decode stderr output\nSignal info: Process exited with non-zero status but no signal (likely a handled error, e.g., memory allocation failure).") := by
  have hbad : utf8Decode outBadStderr.stderr = none := by decide
  have h := c10_stderr_placeholder envBadStderr "starknet-sierra-compile" ["--flag"]
    (ResourceLimits.new none none none) "/tmp/in" outBadStderr
    ⟨⟨"input", rfl⟩, ⟨tfIn, rfl, rfl⟩, rfl⟩ rfl rfl hbad
  rw [h]
  exact congrArg Except.error (by decide)

end SierraMulticompile
